import Mathlib

/-!
# SimpleTrans — radiative-transfer core, shallow embedding

This file embeds the numeric core of the SimpleTrans repository
(`src/simpletrans/radiative_transfer.py`, `plank.py`, `isa.py`) in Lean and
proves or refutes the specification's claims about it.

Modelling conventions:
* numpy float arrays carrying exact decimal data are modelled as `List ℚ`
  where the claims are about exact discrete behaviour (binning, axis
  coercion, altitude selection), and as real-valued functions where the
  claims are about the flux algebra (`Real.exp`, Planck's law);
* a Python function that can die with an exception on a path a claim cares
  about is given an `Option` result (`none` = the raised error);
* `np.rint` is round-half-to-even, `np.unique` returns the sorted distinct
  values, `int(..)` truncates toward zero.
-/

namespace SimpleTrans

/-! ## Definitions: spectral resampler (`integer_bin_means`) -/

/-- Model of `np.rint`: round to nearest integer, ties to even (the IEEE
default rounding mode).  With `f = ⌊q⌋` the fractional part `q - f` is
compared to `1/2`; the comparison is written over the numerator and
denominator (`q - f < 1/2  ↔  2*(q.num - f*q.den) < q.den`, since
`q.den > 0`) so that it is a plain integer computation. -/
def np_rint (q : ℚ) : ℤ :=
  let f := q.floor
  let twice_frac := 2 * (q.num - f * (q.den : ℤ))
  if twice_frac < (q.den : ℤ) then f
  else if (q.den : ℤ) < twice_frac then f + 1
  else if f % 2 = 0 then f else f + 1

/-- Model of `np.mean` of a 1-d array (the undefined empty slice never
occurs at call sites: every bin selected has at least one sample). -/
def np_mean (l : List ℚ) : ℚ := l.sum / l.length

/-- Model of `np.unique`: the sorted distinct values of the input. -/
def np_unique (l : List ℚ) : List ℚ :=
  l.dedup.insertionSort (· ≤ ·)

/-- Model of `int_bins = np.rint(column_0)`: the rounded keys, one per
sample. -/
def rint_bins (column_0 : List ℚ) : List ℚ :=
  column_0.map (fun q => ((np_rint q : ℤ) : ℚ))

/-- Embedding of `integer_bin_means(column_0, column_1)` from
`simpletrans/radiative_transfer.py`: `int_bins = np.rint(column_0)`,
`col_0_unique = np.unique(int_bins)`, and for each unique rounded key the
mean of the `column_1` entries whose rounded key equals it (the boolean
mask `int_bins == value` is the filter over the zipped columns). -/
def integer_bin_means (column_0 column_1 : List ℚ) : List ℚ × List ℚ :=
  (np_unique (rint_bins column_0),
   (np_unique (rint_bins column_0)).map (fun v =>
     np_mean ((((rint_bins column_0).zip column_1).filter
       (fun p => p.1 = v)).map Prod.snd)))

/-! ## Definitions: spectral resampler (`coerce_sorted_key_value_pair_to_target`) -/

/-- Model of `np.delete(arr, idxs, axis=1)`: drop the columns whose
position is listed in `idxs` (positions are taken against the current
array). -/
def np_delete (l : List (ℚ × ℚ)) (idxs : List ℕ) : List (ℚ × ℚ) :=
  (l.enum.filter (fun p => decide (p.1 ∉ idxs))).map Prod.snd

/-- Model of `target_is_superset = set(target_array) - set(a_1)`: the
target keys with no source value.  (A Python set is modelled as the
dedup'd list; its unspecified iteration order is harmless below because
these keys are distinct and are either sorted away or used as a set.) -/
def target_is_superset (a_1 target : List ℚ) : List ℚ :=
  target.dedup.filter (fun k => decide (k ∉ a_1))

/-- Model of `target_is_subset = set(a_1) - set(target_array)`: the
surplus source keys lying outside the target axis. -/
def target_is_subset (a_1 target : List ℚ) : List ℚ :=
  a_1.dedup.filter (fun k => decide (k ∉ target))

/-- The column stack `a_12_array` of `coerce_sorted_key_value_pair_to_target`
after the if/else, before the final row split.  Mirrors the source exactly:
the key/value columns are stacked (`vstack` ≙ `zip`), and — crucially —
only when `target_is_superset` is empty does the branch that deletes
surplus source keys run (`if target_is_superset: … else: …`); otherwise a
`[entry, 0]` column is appended for every missing target key and the
columns are re-sorted by key (`argsort`'s unstable sort agrees with a
stable sort whenever the keys are distinct, which holds at every call
site, the keys being `np.unique` output). -/
def coerce_pairs (a_1 a_2 target : List ℚ) : List (ℚ × ℚ) :=
  if target_is_superset a_1 target ≠ [] then
    ((a_1.zip a_2) ++ (target_is_superset a_1 target).map
        (fun k => (k, (0 : ℚ)))).insertionSort (fun p q => p.1 ≤ q.1)
  else
    (target_is_subset a_1 target).foldl
      (fun cur k =>
        np_delete cur ((a_1.enum.filter (fun p => decide (p.2 = k))).map Prod.fst))
      (a_1.zip a_2)

/-- Embedding of `coerce_sorted_key_value_pair_to_target(a_1, a_2,
target_array)`: returns `(a_12_array[0], a_12_array[1])`, i.e. the key row
and value row of the coerced column stack. -/
def coerce_sorted_key_value_pair_to_target (a_1 a_2 target : List ℚ) :
    List ℚ × List ℚ :=
  ((coerce_pairs a_1 a_2 target).map Prod.fst,
   (coerce_pairs a_1 a_2 target).map Prod.snd)

/-! ## Definitions: `fetch_od_from_db` -/

/-- Model of Python `int(..)` on a rational value: truncation toward
zero. -/
def pyInt (q : ℚ) : ℤ :=
  if q < 0 then q.ceil else q.floor

/-- The `alt_list` built by `fetch_od_from_db`: the distinct stored
altitudes (`SELECT DISTINCT altitude`) kept by
`if (i > alt_min) and (i < alt_max)` — the strict open interval. -/
def alt_layers (storedAlts : List ℚ) (alt_min alt_max : ℚ) : List ℚ :=
  storedAlts.filter (fun i => decide (alt_min < i ∧ i < alt_max))

/-- Model of `np.arange(wave_no_min, wave_no_max + 1, dtype=int)`. -/
def np_arange_int (wMin wMax : ℤ) : List ℤ :=
  (List.range (wMax + 1 - wMin).toNat).map (fun n => wMin + n)

/-- Embedding of `fetch_od_from_db` after its SQL reads.  `storedAlts`
stands for the `SELECT DISTINCT altitude` result and `od_array` for the
windowed `(altitude, wave_no, optical_depth)` rows.  The per-altitude loop
bins and coerces that altitude's rows and appends the dict entry keyed by
`int(alt)`; the loop variable `binned_wave_nos` is modelled by an
`Option (List ℚ)` that starts unassigned (`none`).  The final
`return od_dict, binned_wave_nos` raises `UnboundLocalError` when the loop
body never ran, modelled by the `none` result. -/
def fetch_od_from_db (storedAlts : List ℚ) (od_array : List (ℚ × ℚ × ℚ))
    (alt_min alt_max : ℚ) (wMin wMax : ℤ) :
    Option (List (ℤ × List ℚ) × List ℚ) :=
  let res := (alt_layers storedAlts alt_min alt_max).foldl
    (fun (st : List (ℤ × List ℚ) × Option (List ℚ)) alt =>
      let ods := od_array.filter (fun r => decide (r.1 = alt))
      let bm := integer_bin_means (ods.map (fun r => r.2.1))
        (ods.map (fun r => r.2.2))
      let co := coerce_sorted_key_value_pair_to_target bm.1 bm.2
        ((np_arange_int wMin wMax).map (fun z => (z : ℚ)))
      (st.1 ++ [(pyInt alt, co.2)], some co.1))
    ([], none)
  match res.2 with
  | none => none
  | some w => some (res.1, w)

/-! ## Definitions: `AtmosphereGrid.get_optical_depth` -/

/-- Embedding of `AtmosphereGrid.get_optical_depth`, per-gas view.  The
loop starts from `od_df = 0` and does `od_df += pd.DataFrame(od_dict)` for
each requested gas, i.e. an element-wise left fold of `+` over the per-gas
resampled fields (each `gas_ods` entry is one gas's field,
`layer → wavenumber → optical depth`; pandas aligns the frames cell by
cell because every gas is resampled onto the same wavenumber axis and the
same stored-altitude columns). -/
def get_optical_depth (gas_ods : List (ℕ → ℕ → ℝ)) : ℕ → ℕ → ℝ :=
  gas_ods.foldl (fun od_df g => fun i j => od_df i j + g i j) (fun _ _ => 0)

/-! ## Definitions: Planck function (`plank.py`) and ISA temperature (`isa.py`) -/

/-- Value of `scipy.constants.h` (Planck constant, J s). -/
def cst_h : ℝ := 6.62607015e-34

/-- Value of `scipy.constants.c` (speed of light, m/s). -/
def cst_c : ℝ := 299792458

/-- Value of `scipy.constants.k` (Boltzmann constant, J/K). -/
def cst_k : ℝ := 1.380649e-23

/-- Embedding of `plank_nu(nu_, temperature, flux)` from `plank.py` at its
default `units="cm"` (the only units every call site uses): `nu_` is
scaled by 100, `k = 100`, `c_1 = 2 h c² / k²`, `c_2 = h c / k_B`, `pifac`
is `π` for flux and `1` for radiance, and the result is
`pifac * c_1 * nu_³ / (exp(c_2 nu_ / T) - 1) * 10⁶`. -/
noncomputable def plank_nu (nu_ temperature : ℝ) (flux : Bool) : ℝ :=
  (if flux then Real.pi else 1) * (2 * cst_h * cst_c ^ 2 / (100 : ℝ) ^ 2) *
    (nu_ * 100) ^ 3 /
    (Real.exp (cst_h * cst_c / cst_k * (nu_ * 100) / temperature) - 1) *
    10 ^ 6

/-- Embedding of `isa.get_temperature` (scalar path): the ISA 1976
piecewise-linear temperature profile `Tb + Lb * (h - hb)` per altitude
band.  Above the top band the Python function returns `False`, which the
vectorized path stores as `0`; we model that branch as `0`. -/
def get_temperature (h : ℚ) : ℚ :=
  if h < 11000 then 288.15 + (-0.0065) * (h - 0)
  else if h < 20000 then 216.65 + 0 * (h - 11000)
  else if h < 32000 then 216.65 + 0.001 * (h - 20000)
  else if h < 47000 then 228.65 + 0.0028 * (h - 32000)
  else if h < 51000 then 270.65 + 0 * (h - 47000)
  else if h < 71000 then 270.65 + (-0.0028) * (h - 51000)
  else if h < 84852 then 214.65 + (-0.002) * (h - 71000)
  else 0

/-- Embedding of `isa.get_temperature` on a list of Python ints (the
vectorized path): `T = np.zeros_like(h)` inherits the integer dtype from
the input list, so every assignment `T[i] = get_temperature(height)`
truncates the temperature toward zero. -/
def get_temperature_int_list (hs : List ℤ) : List ℤ :=
  hs.map (fun h => pyInt (get_temperature (h : ℚ)))

/-- Embedding of `AtmosphereGrid.get_blackbody_grid`: `temp_list =
isa.get_temperature([int(i) for i in self.alt_list])` (the altitude-layer
keys are already ints), the temperature and wavenumber grids are built by
broadcasting, and the returned (transposed) grid has cell
`[ν, layer] = plank_nu(wave_no_bins[ν], temp_list[layer], flux=True)`. -/
noncomputable def get_blackbody_grid (alt_list : List ℤ) (wave_no_bins : List ℝ) :
    ℕ → ℕ → ℝ :=
  fun ν layer =>
    plank_nu (wave_no_bins.getD ν 0)
      (((get_temperature_int_list alt_list).getD layer 0 : ℤ) : ℝ) true

/-! ## Definitions: `AtmosphereGrid.flux_up`

The pandas frames `od_df`, `flux_from_surf`, `flux_from_ith_block` have one
row per wavenumber and one column per altitude layer; the loop walks the
layer columns.  Here a grid is a function `layer → wavenumber → ℝ` (the
transpose of the frame) and the loop index `i` is the layer. -/

/-- Model of `transmission_all_alt = np.exp(-self.od_df)`. -/
noncomputable def transmission (od : ℕ → ℕ → ℝ) : ℕ → ℕ → ℝ :=
  fun layer ν => Real.exp (-(od layer ν))

/-- Model of `ground_flux = plank_nu(self.wave_no_bins,
isa.get_temperature(self.alt_min), flux=True)` — the scalar temperature
path, no integer truncation. -/
noncomputable def ground_flux (alt_min : ℚ) (wave_no_bins : List ℝ) : ℕ → ℝ :=
  fun ν => plank_nu (wave_no_bins.getD ν 0) ((get_temperature alt_min : ℚ) : ℝ) true

/-- One iteration of `flux_up`'s loop at column `i` on the state
`(flux_from_surf, flux_from_ith_block)`: nothing for `i = 0`; otherwise
`flux_from_ith_block[:, i] += flux_from_ith_block[:, i-1]` and
`flux_from_surf[:, i-1] *= flux_from_surf[:, i-1]` (the literal
self-squaring of the source). -/
noncomputable def flux_step (st : (ℕ → ℕ → ℝ) × (ℕ → ℕ → ℝ)) (i : ℕ) :
    (ℕ → ℕ → ℝ) × (ℕ → ℕ → ℝ) :=
  if i = 0 then st
  else
    (fun a b => if a = i - 1 then st.1 a b * st.1 a b else st.1 a b,
     fun a b => if a = i then st.2 a b + st.2 (i - 1) b else st.2 a b)

/-- The two frames as initialised before the loop:
`flux_from_surf = transmission * ground_flux` and
`flux_from_ith_block = transmission * blackbody_grid`. -/
noncomputable def flux_up_init (od bb : ℕ → ℕ → ℝ) (g : ℕ → ℝ) :
    (ℕ → ℕ → ℝ) × (ℕ → ℕ → ℝ) :=
  (fun a b => transmission od a b * g b,
   fun a b => transmission od a b * bb a b)

/-- The body of `AtmosphereGrid.flux_up` for `n` layer columns: run the
loop over every column index and return
`total_flux = flux_from_surf + flux_from_ith_block`. -/
noncomputable def flux_up_core (n : ℕ) (od bb : ℕ → ℕ → ℝ) (g : ℕ → ℝ) :
    ℕ → ℕ → ℝ :=
  fun i j =>
    ((List.range n).foldl flux_step (flux_up_init od bb g)).1 i j +
    ((List.range n).foldl flux_step (flux_up_init od bb g)).2 i j

/-- Embedding of `AtmosphereGrid.flux_up`: the loop body applied to the
grid's own optical-depth field, its blackbody grid (note the `[ν, layer]`
index order of `get_blackbody_grid`) and the surface Planck flux. -/
noncomputable def flux_up (alt_min : ℚ) (alt_list : List ℤ)
    (wave_no_bins : List ℝ) (od : ℕ → ℕ → ℝ) : ℕ → ℕ → ℝ :=
  flux_up_core alt_list.length od
    (fun layer ν => get_blackbody_grid alt_list wave_no_bins ν layer)
    (ground_flux alt_min wave_no_bins)

/-! ## Helper lemmas -/

/-- Re-zipping the two projected rows of a column stack recovers the
stack. -/
theorem zip_map_fst_snd {α β : Type} (l : List (α × β)) :
    (l.map Prod.fst).zip (l.map Prod.snd) = l := by
  induction l with
  | nil => rfl
  | cons a t ih => simp [ih]

/-- Left fold of element-wise addition, evaluated at a cell. -/
theorem get_optical_depth_foldl (gas_ods : List (ℕ → ℕ → ℝ))
    (f : ℕ → ℕ → ℝ) (i j : ℕ) :
    (gas_ods.foldl (fun od_df g => fun i j => od_df i j + g i j) f) i j =
      f i j + (gas_ods.map (fun g => g i j)).sum := by
  induction gas_ods generalizing f with
  | nil => simp
  | cons g t ih => simp [ih, add_assoc]

/-- After the loop has processed columns `0..n-1`, the surface frame holds
the squared initial value at every column except the last. -/
theorem flux_fold_surf (n : ℕ) (s0 b0 : ℕ → ℕ → ℝ) : ∀ a b : ℕ,
    ((List.range n).foldl flux_step (s0, b0)).1 a b =
      if a + 1 < n then s0 a b * s0 a b else s0 a b := by
  induction n with
  | zero => intro a b; simp
  | succ n ih =>
    intro a b
    rw [List.range_succ, List.foldl_append, List.foldl_cons, List.foldl_nil,
      flux_step]
    by_cases hn : n = 0
    · subst hn
      rw [if_pos rfl]
      simp only [List.range_zero, List.foldl_nil]
      rw [if_neg (by omega)]
    · rw [if_neg hn]
      dsimp only
      by_cases ha : a = n - 1
      · subst ha
        rw [if_pos rfl, ih, if_neg (by omega), if_pos (by omega)]
      · rw [if_neg ha, ih]
        by_cases h : a + 1 < n
        · rw [if_pos h, if_pos (by omega)]
        · rw [if_neg h, if_neg (by omega)]

/-- After the loop has processed columns `0..n-1`, every column `a < n` of
the layer-emission frame holds the running prefix sum of the initial
columns `0..a`. -/
theorem flux_fold_block (n : ℕ) (s0 b0 : ℕ → ℕ → ℝ) : ∀ a b : ℕ,
    ((List.range n).foldl flux_step (s0, b0)).2 a b =
      if a < n then ∑ t in Finset.range (a + 1), b0 t b else b0 a b := by
  induction n with
  | zero => intro a b; simp
  | succ n ih =>
    intro a b
    rw [List.range_succ, List.foldl_append, List.foldl_cons, List.foldl_nil,
      flux_step]
    by_cases hn : n = 0
    · subst hn
      rw [if_pos rfl]
      simp only [List.range_zero, List.foldl_nil]
      by_cases ha : a = 0
      · subst ha
        rw [if_pos (by omega), Finset.sum_range_one]
      · rw [if_neg (by omega)]
    · rw [if_neg hn]
      dsimp only
      by_cases ha : a = n
      · rw [if_pos ha, ih, ih, ha, if_neg (by omega), if_pos (by omega),
          if_pos (by omega)]
        have hn1 : n - 1 + 1 = n := by omega
        rw [hn1, Finset.sum_range_succ, add_comm]
      · rw [if_neg ha, ih]
        by_cases h : a < n
        · rw [if_pos h, if_pos (by omega)]
        · rw [if_neg h, if_neg (by omega)]

/-- Closed form of the loop: at any layer `i < n` the total flux is the
(squared except at the top column) surface term plus the prefix sum of the
attenuated layer emissions. -/
theorem flux_up_core_closed (n : ℕ) (od bb : ℕ → ℕ → ℝ) (g : ℕ → ℝ)
    (i j : ℕ) (hi : i < n) :
    flux_up_core n od bb g i j =
      (if i + 1 < n
        then (transmission od i j * g j) * (transmission od i j * g j)
        else transmission od i j * g j) +
      ∑ t in Finset.range (i + 1), transmission od t j * bb t j := by
  rw [flux_up_core, flux_up_init, flux_fold_surf, flux_fold_block, if_pos hi]

/-! ## Claim theorems -/

/-- C1. The seed binning example: keys `[0,1,3,4,6]`, values
`[-1,10,30,40,60]`, target axis `[1..6]`.  The claim (and the function's
own docstring) expect keys `[1,2,3,4,5,6]` and values `[10,0,30,40,0,60]`.
Because the surplus-key deletion branch is the `else` of the zero-insertion
branch, the out-of-range key `0` is never dropped: the code returns keys
`[0,1,2,3,4,5,6]` and values `[-1,10,0,30,40,0,60]`. -/
theorem coerce_seed_example_keeps_surplus_key :
    coerce_sorted_key_value_pair_to_target
        [0, 1, 3, 4, 6] [-1, 10, 30, 40, 60] [1, 2, 3, 4, 5, 6] =
      ([0, 1, 2, 3, 4, 5, 6], [-1, 10, 0, 30, 40, 0, 60]) ∧
    coerce_sorted_key_value_pair_to_target
        [0, 1, 3, 4, 6] [-1, 10, 30, 40, 60] [1, 2, 3, 4, 5, 6] ≠
      ([1, 2, 3, 4, 5, 6], [10, 0, 30, 40, 0, 60]) := by
  constructor <;> decide

/-- C2.  `flux_up` computes `transmission = exp(-od)` cellwise,
initialises `flux_from_surf = transmission * ground_flux` and
`flux_from_ith_block = transmission * blackbody`, walks the layer columns
from index 1 upward doing `flux_from_ith_block[:, i] +=
flux_from_ith_block[:, i-1]` and `flux_from_surf[:, i-1] *=
flux_from_surf[:, i-1]`, and returns their sum: hence at layer `i` the
total flux is the surface term — squared at every column except the last —
plus the running prefix sum of the attenuated layer emissions. -/
theorem flux_up_algorithm (alt_min : ℚ) (alt_list : List ℤ)
    (wave_no_bins : List ℝ) (od : ℕ → ℕ → ℝ) (i j : ℕ)
    (hi : i < alt_list.length) :
    flux_up alt_min alt_list wave_no_bins od i j =
      (if i + 1 < alt_list.length
        then (transmission od i j * ground_flux alt_min wave_no_bins j) *
          (transmission od i j * ground_flux alt_min wave_no_bins j)
        else transmission od i j * ground_flux alt_min wave_no_bins j) +
      ∑ t in Finset.range (i + 1),
        transmission od t j * get_blackbody_grid alt_list wave_no_bins j t := by
  rw [flux_up]
  exact flux_up_core_closed alt_list.length od _ _ i j hi

/-- Witness for C2 on a two-layer grid at the top layer. -/
theorem flux_up_algorithm_witness :
    1 < ([0, 1000] : List ℤ).length ∧
    flux_up 0 [0, 1000] [667] (fun _ _ => 0) 1 0 =
      (if 1 + 1 < ([0, 1000] : List ℤ).length
        then (transmission (fun _ _ => 0) 1 0 * ground_flux 0 [667] 0) *
          (transmission (fun _ _ => 0) 1 0 * ground_flux 0 [667] 0)
        else transmission (fun _ _ => 0) 1 0 * ground_flux 0 [667] 0) +
      ∑ t in Finset.range (1 + 1),
        transmission (fun _ _ => 0) t 0 * get_blackbody_grid [0, 1000] [667] 0 t :=
  ⟨by decide, flux_up_algorithm 0 [0, 1000] [667] (fun _ _ => 0) 1 0 (by decide)⟩

/-- C3, counterexample: the optical-depth field holds `-1` (negative) at
its only cell, yet `flux_up` does not abort — there is no validation of
any kind in the code — and returns the fully computed flux
`e¹·ground + e¹·blackbody`. -/
theorem flux_up_negative_od_counterexample :
    ((-1 : ℝ) < 0) ∧
    flux_up 0 [0] [667] (fun _ _ => (-1 : ℝ)) 0 0 =
      Real.exp 1 * ground_flux 0 [667] 0 +
      Real.exp 1 * get_blackbody_grid [0] [667] 0 0 := by
  refine ⟨by norm_num, ?_⟩
  rw [flux_up, flux_up_core_closed ([0] : List ℤ).length (fun _ _ => (-1 : ℝ))
    _ _ 0 0 (by decide)]
  simp [transmission]

/-- C3, amended.  For any optical-depth field — including one with a
negative entry at the cell being read — `flux_up`'s loop body runs and
produces the ordinary accumulation result; no data-integrity check exists
and no error is raised. -/
theorem flux_up_core_ignores_invalid_od (n : ℕ) (od bb : ℕ → ℕ → ℝ)
    (g : ℕ → ℝ) (i j : ℕ) (_hneg : od i j < 0) (hi : i < n) :
    flux_up_core n od bb g i j =
      (if i + 1 < n
        then (transmission od i j * g j) * (transmission od i j * g j)
        else transmission od i j * g j) +
      ∑ t in Finset.range (i + 1), transmission od t j * bb t j :=
  flux_up_core_closed n od bb g i j hi

/-- Witness for the amended C3 at a one-layer grid with `od = -1`. -/
theorem flux_up_core_ignores_invalid_od_witness :
    ((fun _ _ : ℕ => (-1 : ℝ)) 0 0 < 0) ∧ 0 < 1 ∧
    flux_up_core 1 (fun _ _ => (-1 : ℝ)) (fun _ _ => 1) (fun _ => 0) 0 0 =
      (if 0 + 1 < 1
        then (transmission (fun _ _ => (-1 : ℝ)) 0 0 * (0 : ℝ)) *
          (transmission (fun _ _ => (-1 : ℝ)) 0 0 * (0 : ℝ))
        else transmission (fun _ _ => (-1 : ℝ)) 0 0 * (0 : ℝ)) +
      ∑ t in Finset.range (0 + 1),
        transmission (fun _ _ => (-1 : ℝ)) t 0 * (1 : ℝ) :=
  ⟨by norm_num, by norm_num,
   flux_up_core_ignores_invalid_od 1 (fun _ _ => (-1 : ℝ)) (fun _ _ => 1)
     (fun _ => 0) 0 0 (by norm_num) (by norm_num)⟩

/-- C4. The spec's mean-binning example claims `integer_bin_means` rounds
ties half away from zero, so that wavenumbers `[0.1, 0.5, 1.2]` with values
`[1, 3, 5]` give keys `[0, 1]` with means `[1, 4]`.  The code uses
`np.rint`, which rounds ties to even: `0.5` rounds to `0`, so the bins are
`[0, 0, 1]` and the means are `[mean(1,3), mean(5)] = [2, 5]`. -/
theorem integer_bin_means_ties_to_even :
    integer_bin_means [(0.1 : ℚ), 0.5, 1.2] [1, 3, 5] = ([0, 1], [2, 5]) ∧
    integer_bin_means [(0.1 : ℚ), 0.5, 1.2] [1, 3, 5] ≠ ([0, 1], [1, 4]) := by
  have e1 : (0.1 : ℚ) = mkRat 1 10 := by
    rw [Rat.mkRat_eq_divInt, Rat.divInt_eq_div]; norm_num
  have e2 : (0.5 : ℚ) = mkRat 1 2 := by
    rw [Rat.mkRat_eq_divInt, Rat.divInt_eq_div]; norm_num
  have e3 : (1.2 : ℚ) = mkRat 6 5 := by
    rw [Rat.mkRat_eq_divInt, Rat.divInt_eq_div]; norm_num
  have hb : rint_bins [(0.1 : ℚ), 0.5, 1.2] = [0, 0, 1] := by
    rw [rint_bins, e1, e2, e3]
    have r1 : np_rint (mkRat 1 10) = 0 := by decide
    have r2 : np_rint (mkRat 1 2) = 0 := by decide
    have r3 : np_rint (mkRat 6 5) = 1 := by decide
    simp [r1, r2, r3]
  have hu : np_unique [(0 : ℚ), 0, 1] = [0, 1] := by decide
  have h : integer_bin_means [(0.1 : ℚ), 0.5, 1.2] [1, 3, 5] = ([0, 1], [2, 5]) := by
    rw [integer_bin_means, hb, hu]
    norm_num [np_mean, List.filter, List.zip, List.zipWith]
  refine ⟨h, ?_⟩
  rw [h]
  norm_num

/-- C5.  Fully transparent two-layer atmosphere (`od = 0` everywhere):
`transmission = e⁰ = 1`, the top-layer surface term is not squared (the
self-squaring only hits columns before the last), so the total flux at the
top layer is exactly `ground_flux[ν] + blackbody[0, ν] + blackbody[1, ν]`. -/
theorem flux_up_transparent_two_layer (alt_min : ℚ) (alt_list : List ℤ)
    (wave_no_bins : List ℝ) (h2 : alt_list.length = 2) (j : ℕ) :
    flux_up alt_min alt_list wave_no_bins (fun _ _ => 0) 1 j =
      ground_flux alt_min wave_no_bins j +
      (get_blackbody_grid alt_list wave_no_bins j 0 +
       get_blackbody_grid alt_list wave_no_bins j 1) := by
  rw [flux_up, h2,
    flux_up_core_closed 2 (fun _ _ => (0 : ℝ)) _ _ 1 j (by norm_num)]
  rw [if_neg (by norm_num)]
  simp [transmission, Finset.sum_range_succ]

/-- Witness for C5 on the reference configuration: surface layer 0 m,
second layer 1000 m, wavenumber 667 cm⁻¹. -/
theorem flux_up_transparent_two_layer_witness :
    ([0, 1000] : List ℤ).length = 2 ∧
    flux_up 0 [0, 1000] [667] (fun _ _ => 0) 1 0 =
      ground_flux 0 [667] 0 +
      (get_blackbody_grid [0, 1000] [667] 0 0 +
       get_blackbody_grid [0, 1000] [667] 0 1) :=
  ⟨by decide, flux_up_transparent_two_layer 0 [0, 1000] [667] (by decide) 0⟩

/-- C6.  Superposition: for two gases with resampled fields `a` and `b`
the assembled optical-depth field is `a + b` at every cell, and in general
the assembled field is the element-wise sum over all requested gases. -/
theorem get_optical_depth_superposition :
    (∀ a b : ℕ → ℕ → ℝ, ∀ i j : ℕ,
      get_optical_depth [a, b] i j = a i j + b i j) ∧
    (∀ gas_ods : List (ℕ → ℕ → ℝ), ∀ i j : ℕ,
      get_optical_depth gas_ods i j = (gas_ods.map (fun g => g i j)).sum) := by
  constructor
  · intro a b i j
    simp [get_optical_depth, get_optical_depth_foldl]
  · intro gas_ods i j
    simp [get_optical_depth, get_optical_depth_foldl]

/-- C7.  Open-interval altitude selection: an altitude belongs to the
layer list `fetch_od_from_db` iterates over iff it is a stored altitude
lying strictly inside `(alt_min, alt_max)`; in particular a stored
altitude equal to either bound is excluded and one strictly between them
is included. -/
theorem alt_layers_open_interval (stored : List ℚ) (amin amax a : ℚ) :
    a ∈ alt_layers stored amin amax ↔ a ∈ stored ∧ amin < a ∧ a < amax := by
  simp [alt_layers, List.mem_filter]

/-- C8.  At the surface layer (altitude 0 m, the reference configuration's
wavenumber 667 cm⁻¹) the atmosphere model's temperature is 288.15 K, but
the vectorized temperature array is integer-typed, so the blackbody cell
is the Planck flux at the truncated temperature 288 K — not at the model
temperature the claim requires.  (The flux-form part of the claim does
hold: `flux=True` multiplies the radiance by π, last conjunct.) -/
theorem get_blackbody_grid_truncates_temperature :
    get_temperature 0 = 288.15 ∧
    pyInt (get_temperature 0) = 288 ∧
    get_blackbody_grid [0] [(667 : ℝ)] 0 0 =
      plank_nu 667 ((288 : ℤ) : ℝ) true ∧
    ∀ nu_ temperature : ℝ,
      plank_nu nu_ temperature true =
        Real.pi * plank_nu nu_ temperature false := by
  have ht : get_temperature 0 = 288.15 := by
    rw [get_temperature]
    norm_num
  have he : (288.15 : ℚ) = mkRat 5763 20 := by
    rw [Rat.mkRat_eq_divInt, Rat.divInt_eq_div]; norm_num
  have hp : pyInt (get_temperature 0) = 288 := by
    rw [ht, he]; decide
  refine ⟨ht, hp, ?_, ?_⟩
  · simp [get_blackbody_grid, get_temperature_int_list, hp]
  · intro nu_ temperature
    rw [plank_nu, plank_nu]
    simp only [if_true, Bool.false_eq_true, if_false]
    ring

/-- C9.  Zero-fill property: a target-axis key `k` absent from the source
keys `a_1` appears in the coerced key/value output, with value exactly `0`,
and every output value attached to `k` is `0`. -/
theorem coerce_zero_fill (a_1 a_2 target : List ℚ) (k : ℚ)
    (hkt : k ∈ target) (hka : k ∉ a_1) :
    (k, (0 : ℚ)) ∈
        (coerce_sorted_key_value_pair_to_target a_1 a_2 target).1.zip
          (coerce_sorted_key_value_pair_to_target a_1 a_2 target).2 ∧
    ∀ v : ℚ, (k, v) ∈
        (coerce_sorted_key_value_pair_to_target a_1 a_2 target).1.zip
          (coerce_sorted_key_value_pair_to_target a_1 a_2 target).2 → v = 0 := by
  have hkS : k ∈ target_is_superset a_1 target := by
    rw [target_is_superset, List.mem_filter]
    exact ⟨List.mem_dedup.2 hkt, by simpa using hka⟩
  have hS : target_is_superset a_1 target ≠ [] := List.ne_nil_of_mem hkS
  have hout : (coerce_sorted_key_value_pair_to_target a_1 a_2 target).1.zip
      (coerce_sorted_key_value_pair_to_target a_1 a_2 target).2 =
      coerce_pairs a_1 a_2 target := by
    rw [coerce_sorted_key_value_pair_to_target]
    exact zip_map_fst_snd _
  rw [hout, coerce_pairs, if_pos hS]
  have hperm := List.perm_insertionSort (fun p q : ℚ × ℚ => p.1 ≤ q.1)
    ((a_1.zip a_2) ++ (target_is_superset a_1 target).map (fun k => (k, (0 : ℚ))))
  constructor
  · rw [hperm.mem_iff]
    exact List.mem_append_right _ (List.mem_map_of_mem _ hkS)
  · intro v hv
    rw [hperm.mem_iff] at hv
    rcases List.mem_append.1 hv with h | h
    · exact absurd (List.of_mem_zip h).1 hka
    · rcases List.mem_map.1 h with ⟨x, _, hx⟩
      exact (Prod.mk.inj hx).2.symm

/-- Witness for C9 at `a_1 = [1]`, `a_2 = [5]`, `target = [1, 2]`, `k = 2`. -/
theorem coerce_zero_fill_witness :
    ((2 : ℚ) ∈ ([1, 2] : List ℚ) ∧ (2 : ℚ) ∉ ([1] : List ℚ)) ∧
    ((2, (0 : ℚ)) ∈
        (coerce_sorted_key_value_pair_to_target [1] [5] [1, 2]).1.zip
          (coerce_sorted_key_value_pair_to_target [1] [5] [1, 2]).2 ∧
    ∀ v : ℚ, (2, v) ∈
        (coerce_sorted_key_value_pair_to_target [1] [5] [1, 2]).1.zip
          (coerce_sorted_key_value_pair_to_target [1] [5] [1, 2]).2 → v = 0) :=
  ⟨⟨by decide, by decide⟩,
   coerce_zero_fill [1] [5] [1, 2] 2 (by decide) (by decide)⟩

/-- C10.  When no stored altitude lies strictly inside `(alt_min,
alt_max)`, the per-altitude loop of `fetch_od_from_db` never runs, the
`binned_wave_nos` local is never assigned, and the function fails at its
return statement (modelled as `none`) instead of returning an empty
mapping. -/
theorem fetch_od_from_db_unbound_local (stored : List ℚ)
    (od_array : List (ℚ × ℚ × ℚ)) (amin amax : ℚ) (wMin wMax : ℤ)
    (h : ∀ a ∈ stored, ¬(amin < a ∧ a < amax)) :
    fetch_od_from_db stored od_array amin amax wMin wMax = none := by
  have hnil : alt_layers stored amin amax = [] := by
    simp only [alt_layers, List.filter_eq_nil_iff]
    intro a ha
    simpa using h a ha
  rw [fetch_od_from_db, hnil]
  rfl

/-- Witness for C10: two stored altitudes sitting exactly on the window
bounds, so the open interval selects neither. -/
theorem fetch_od_from_db_unbound_local_witness :
    (∀ a ∈ ([0, 10] : List ℚ), ¬((0 : ℚ) < a ∧ a < 10)) ∧
    fetch_od_from_db [0, 10] [] 0 10 1 3 = none :=
  ⟨by decide, fetch_od_from_db_unbound_local [0, 10] [] 0 10 1 3 (by decide)⟩

end SimpleTrans
